import Mathlib

/-!
Shallow embedding of src/thingsboard_connector.py: two telemetry connector
classes (Http_Connector, Mqtt_Connector) holding an in-memory key/value
buffer `data`. Python runtime values are modelled by `PyValue`, Python
exceptions by `PyError` (the spec's `InvalidArgument` is Python's
`ValueError`, the spec's `KeyNotFound` is Python's `KeyError`). Fallible
methods return `Except PyError`; a returned `.error` corresponds to a raise
that leaves the connector object unchanged, since in the source every raise
happens before any field assignment.
-/

mutual
/-- Python runtime values as used by the connector module: the four scalar
kinds (int, float, str, bool), `None`, and dictionaries. Dictionaries are
kept as entry lists in insertion order; states reachable from Python have
unique keys. Equality on keys is structural, which agrees with Python `==`
on the string keys every validated code path uses. -/
inductive PyValue where
  | int (n : Int)
  | float (q : Rat)
  | str (s : String)
  | bool (b : Bool)
  | pynone
  | dict (entries : PyEntries)

/-- The entry list of a Python dictionary, in insertion order. -/
inductive PyEntries where
  | nil
  | cons (key : PyValue) (val : PyValue) (rest : PyEntries)
end

deriving instance DecidableEq for PyValue

deriving instance Repr for PyValue

/-- Runtime type tags: the result of Python's `type(x)` on the kinds of
values the connector code can encounter. -/
inductive PyType where
  | int
  | float
  | str
  | bool
  | noneType
  | dict
  deriving DecidableEq, Repr

/-- Python's `type(v)`. -/
def PyValue.typeOf : PyValue → PyType
  | .int _ => .int
  | .float _ => .float
  | .str _ => .str
  | .bool _ => .bool
  | .pynone => .noneType
  | .dict _ => .dict

/-- Python exceptions raised by the connector module. `ValueError` is what
the spec calls `InvalidArgument`; `KeyError` is the spec's `KeyNotFound`. -/
inductive PyError where
  | ValueError (msg : String)
  | KeyError (key : PyValue)
  | TypeError (msg : String)
  | AttributeError (attr : String)
  deriving DecidableEq, Repr

/-- Holds exactly when `type(v)` is one of the four scalar kinds the spec
permits as telemetry values: int, float, str, bool. -/
def isScalar (v : PyValue) : Bool :=
  match v.typeOf with
  | .int => true
  | .float => true
  | .str => true
  | .bool => true
  | _ => false

namespace PyEntries

/-- Concatenation of two entry lists. -/
def app : PyEntries → PyEntries → PyEntries
  | .nil, e => e
  | .cons k v r, e => .cons k v (app r e)

/-- First-match lookup, Python's `d[key]` read on a dictionary. -/
def lookup : PyEntries → PyValue → Option PyValue
  | .nil, _ => none
  | .cons k v r, key => if k = key then some v else lookup r key

/-- Python's `d[key] = val` on a dictionary: replace the first entry with
this key in place, or append a fresh entry at the end. -/
def set : PyEntries → PyValue → PyValue → PyEntries
  | .nil, key, val => .cons key val .nil
  | .cons k v r, key, val =>
    if k = key then .cons key val r else .cons k v (set r key val)

/-- Whether some entry has the given key. -/
def hasKey : PyEntries → PyValue → Bool
  | .nil, _ => false
  | .cons k _ r, key => decide (k = key) || hasKey r key

/-- Python's `del d[key]`: remove the first entry with this key, or report
failure (`KeyError` at the call site) when the key is absent. -/
def del : PyEntries → PyValue → Option PyEntries
  | .nil, _ => none
  | .cons k v r, key =>
    if k = key then some r else Option.map (cons k v) (del r key)

/-- The pair (k, v) occurs as an entry of the list. -/
inductive Mem : PyValue → PyValue → PyEntries → Prop
  | head (k v : PyValue) (r : PyEntries) : Mem k v (.cons k v r)
  | tail (k v k2 v2 : PyValue) (r : PyEntries) :
      Mem k v r → Mem k v (.cons k2 v2 r)

/-- The buffer invariant the spec states for `data`: every key is a string
and every value is one of the four scalar kinds. -/
def wf : PyEntries → Bool
  | .nil => true
  | .cons k v r => decide (k.typeOf = PyType.str) && isScalar v && wf r

end PyEntries

/-- The spec's `data` invariant on a whole Python value: a dictionary whose
keys are strings and whose values are scalars. -/
def wfData : PyValue → Bool
  | .dict l => l.wf
  | _ => false

/-- Python hashability of the value kinds modelled here: dictionaries are
unhashable and cannot be dictionary keys; every other modelled kind can. -/
def pyHashable (v : PyValue) : Bool :=
  match v with
  | .dict _ => false
  | _ => true

/-- Python's `target[key] = val` statement: item assignment succeeds only on
a dictionary and only for a hashable key, raising `TypeError` otherwise. -/
def pySetItem (target key val : PyValue) : Except PyError PyValue :=
  match target with
  | .dict l =>
    if pyHashable key then .ok (.dict (l.set key val))
    else .error (.TypeError "unhashable type")
  | _ => .error (.TypeError "object does not support item assignment")

/-- Python's `del target[key]` statement: deletion succeeds only on a
dictionary holding the key; a missing key raises `KeyError`, a
non-dictionary target or unhashable key raises `TypeError`. -/
def pyDelItem (target key : PyValue) : Except PyError PyValue :=
  match target with
  | .dict l =>
    if pyHashable key then
      match l.del key with
      | some l2 => .ok (.dict l2)
      | none => .error (.KeyError key)
    else .error (.TypeError "unhashable type")
  | _ => .error (.TypeError "object does not support item deletion")

/-- State of an `Http_Connector` object: the fields `__init__` assigns. The
constant `headers` field (always `{'Content-Type': 'application/json'}`) is
omitted because no operation ever changes or branches on it. -/
structure Http_Connector where
  debug : Bool
  data : PyValue
  host : PyValue
  port : PyValue
  access_token : PyValue
  deriving DecidableEq, Repr

/-- Embeds `Http_Connector.__init__` (thingsboard_connector.py lines 20-50):
validates that host, port and access_token are strings, each failure raising
`ValueError`, then initialises `data` to an empty dictionary and stores the
identity fields. No network activity happens here. -/
def Http_Connector.init (host port access_token : PyValue) (debug : Bool) :
    Except PyError Http_Connector :=
  if host.typeOf ≠ PyType.str then
    .error (.ValueError "Host must be a string.")
  else if port.typeOf ≠ PyType.str then
    .error (.ValueError "Port must be a string.")
  else if access_token.typeOf ≠ PyType.str then
    .error (.ValueError "Access token must be a string.")
  else
    .ok { debug := debug, data := .dict .nil, host := host, port := port,
          access_token := access_token }

/-- Embeds `Http_Connector.set_single_data` (lines 113-125): `self.data[key] =
value` with no validation of any kind. -/
def Http_Connector.set_single_data (c : Http_Connector) (key value : PyValue) :
    Except PyError Http_Connector :=
  match pySetItem c.data key value with
  | .error e => .error e
  | .ok d => .ok { c with data := d }

/-- Embeds `Http_Connector.set_multiple_data` (lines 127-138): `self.data = data`
with no validation of any kind; even a non-dictionary is accepted. -/
def Http_Connector.set_multiple_data (c : Http_Connector) (data : PyValue) :
    Except PyError Http_Connector :=
  .ok { c with data := data }

/-- State of an `Mqtt_Connector` object: the fields `__init__` assigns. The
`client` session object is external library state; the connect attempt in
`__init__` is wrapped in try/except and never changes these fields nor
aborts construction, so it is not part of the state. -/
structure Mqtt_Connector where
  debug : Bool
  data : PyValue
  gateway_data : PyValue
  host : PyValue
  port : PyValue
  username : PyValue
  deriving DecidableEq, Repr

/-- Embeds `Mqtt_Connector.__init__` (lines 141-204): validates that host is a
string, port is an integer and access_token is a string, each failure
raising `ValueError`, then initialises both buffers to empty dictionaries
and stores the identity fields. The subsequent client setup and synchronous
connect attempt are external I/O inside try/except: whatever their outcome,
construction completes with exactly this state. -/
def Mqtt_Connector.init (host port access_token : PyValue) (debug : Bool) :
    Except PyError Mqtt_Connector :=
  if host.typeOf ≠ PyType.str then
    .error (.ValueError "host must be a string")
  else if port.typeOf ≠ PyType.int then
    .error (.ValueError "port must be an integer")
  else if access_token.typeOf ≠ PyType.str then
    .error (.ValueError "access_token must be a string")
  else
    .ok { debug := debug, data := .dict .nil, gateway_data := .dict .nil,
          host := host, port := port, username := access_token }

/-- Embeds `Mqtt_Connector.set_single_data` (lines 315-336): raises `ValueError`
when the key is not a string or the value's type is none of int, float, str,
bool; otherwise `self.data[key] = value`. -/
def Mqtt_Connector.set_single_data (c : Mqtt_Connector) (key value : PyValue) :
    Except PyError Mqtt_Connector :=
  if key.typeOf ≠ PyType.str then
    .error (.ValueError "key must be a string")
  else if value.typeOf ≠ PyType.int ∧ value.typeOf ≠ PyType.float ∧
      value.typeOf ≠ PyType.str ∧ value.typeOf ≠ PyType.bool then
    .error (.ValueError "value must be an int, float, string or boolean")
  else
    match pySetItem c.data key value with
    | .error e => .error e
    | .ok d => .ok { c with data := d }

/-- The `for key in data:` validation loop of
`Mqtt_Connector.set_multiple_data` (lines 354-359): checks every entry in
order, raising `ValueError` at the first non-string key or non-scalar
value. -/
def validateEntries : PyEntries → Except PyError Unit
  | .nil => .ok ()
  | .cons k v rest =>
    if k.typeOf ≠ PyType.str then
      .error (.ValueError "key must be a string")
    else if v.typeOf ≠ PyType.int ∧ v.typeOf ≠ PyType.float ∧
        v.typeOf ≠ PyType.str ∧ v.typeOf ≠ PyType.bool then
      .error (.ValueError "value must be an int, float, string or boolean")
    else validateEntries rest

/-- Embeds `Mqtt_Connector.set_multiple_data` (lines 338-362): raises `ValueError`
when the argument is not a dictionary, then runs the per-entry validation
loop; if everything passes, `self.data = data` replaces the buffer
wholesale. -/
def Mqtt_Connector.set_multiple_data (c : Mqtt_Connector) (data : PyValue) :
    Except PyError Mqtt_Connector :=
  match data with
  | .dict entries =>
    match validateEntries entries with
    | .error e => .error e
    | .ok _ => .ok { c with data := .dict entries }
  | _ => .error (.ValueError "data must be a dictionary")

/-- Embeds `Mqtt_Connector.remove_data` (lines 364-381): raises `ValueError` when
the key is not a string, then `del self.data[key]`, which raises `KeyError`
when the key is absent. -/
def Mqtt_Connector.remove_data (c : Mqtt_Connector) (key : PyValue) :
    Except PyError Mqtt_Connector :=
  if key.typeOf ≠ PyType.str then
    .error (.ValueError "key must be a string")
  else
    match pyDelItem c.data key with
    | .error e => .error e
    | .ok d => .ok { c with data := d }

/-- Embeds `Mqtt_Connector.remove_all_data` (lines 383-396): the signature demands
one positional argument besides self, named `data` in the source; the body
never reads it and just does `self.data = {}`. -/
def Mqtt_Connector.remove_all_data (c : Mqtt_Connector) (data : PyValue) :
    Mqtt_Connector :=
  { c with data := .dict .nil }

/-- Attribute lookup on the `paho.mqtt.client` module object, restricted to
the error-code constants this repository's code mentions. Names and values
are paho-mqtt's: MQTT_ERR_SUCCESS = 0, MQTT_ERR_NO_CONN = 4,
MQTT_ERR_QUEUE_SIZE = 15. The misspelt name MQTT__ERR_QUEUE_SIZE written at
line 307 of the source (double underscore) is not an attribute of the
module, so it maps to `none`. -/
def mqttModuleAttr : String → Option Int
  | "MQTT_ERR_SUCCESS" => some 0
  | "MQTT_ERR_NO_CONN" => some 4
  | "MQTT_ERR_QUEUE_SIZE" => some 15
  | _ => none

/-- Python attribute access `mqtt.<attr>` on the library module: an
undefined attribute raises `AttributeError`. -/
def mqttGetAttr (attr : String) : Except PyError Int :=
  match mqttModuleAttr attr with
  | some v => .ok v
  | none => .error (.AttributeError attr)

/-- The classification a debug-enabled MQTT send prints for the local
queuing result of `client.publish`. -/
inductive PublishClass where
  | success
  | noConn
  | queueSize
  | unknownError (rc : Int)
  deriving DecidableEq, Repr

/-- The debug classification chain of `_send_telemetry_thread` (lines
302-311), comparing `response[0]` against module constants in order. The
third comparison reads the misspelt attribute `mqtt.MQTT__ERR_QUEUE_SIZE`,
faithfully reproduced here, so reaching it raises `AttributeError`. -/
def classifyPublishResult (rc : Int) : Except PyError PublishClass := do
  let s ← mqttGetAttr "MQTT_ERR_SUCCESS"
  if rc = s then
    return PublishClass.success
  else
    let n ← mqttGetAttr "MQTT_ERR_NO_CONN"
    if rc = n then
      return PublishClass.noConn
    else
      let q ← mqttGetAttr "MQTT__ERR_QUEUE_SIZE"
      if rc = q then
        return PublishClass.queueSize
      else
        return PublishClass.unknownError rc

/-- One diagnostic print line of the MQTT send thread body. -/
inductive MqttPrint where
  | sendingHeader
  | sendingData (snapshot : PyValue)
  | classified (result : PublishClass)
  | sendFailed (e : PyError)
  deriving DecidableEq, Repr

/-- Observable outcome of one run of the MQTT send thread body:
`publishCall` is the (topic, payload) argument pair handed to
`client.publish`, `printed` the diagnostic lines in order, `raised` the
exception escaping the thread body, if any. -/
structure MqttSendOutcome where
  publishCall : Option (String × PyValue)
  printed : List MqttPrint
  raised : Option PyError
  deriving DecidableEq, Repr

/-- The payload dictionary built at line 300:
`{ "ts": int(time.time()), "values": data }`, where `now` stands for the
value of `int(time.time())`, the whole seconds since the epoch at send
time. -/
def mqttTelemetryPayload (now : Int) (snapshot : PyValue) : PyValue :=
  .dict (.cons (.str "ts") (.int now)
    (.cons (.str "values") snapshot .nil))

/-- The try-block of `Mqtt_Connector._send_telemetry_thread` (lines
294-311): optional debug header, the publish call, optional debug
classification. `publishResult` models the external `client.publish` call:
`.ok rc` is the local queuing result code `response[0]`, `.error e` a
locally raised exception. Returns the lines printed inside the block and
the exception escaping it, if any. -/
def mqttSendTry (snapshot : PyValue) (debug : Bool)
    (publishResult : Except PyError Int) : List MqttPrint × Option PyError :=
  let header : List MqttPrint :=
    if debug then [.sendingHeader, .sendingData snapshot] else []
  match publishResult with
  | .error e => (header, some e)
  | .ok rc =>
    if debug then
      match classifyPublishResult rc with
      | .ok cls => (header ++ [.classified cls], none)
      | .error e => (header, some e)
    else (header, none)

/-- Embeds `Mqtt_Connector._send_telemetry_thread` (lines 280-313): the try-block
above wrapped in `except Exception as e: print(...)`, which prints any
escaping exception and raises nothing further. The publish call is always
made with the fixed topic and the payload of line 300. -/
def Mqtt_Connector.send_telemetry_thread (snapshot : PyValue) (debug : Bool)
    (now : Int) (publishResult : Except PyError Int) : MqttSendOutcome :=
  let call := some ("v1/devices/me/telemetry", mqttTelemetryPayload now snapshot)
  match mqttSendTry snapshot debug publishResult with
  | (lines, some e) =>
    { publishCall := call, printed := lines ++ [.sendFailed e], raised := none }
  | (lines, none) =>
    { publishCall := call, printed := lines, raised := none }

/-- A concrete `Http_Connector` state, as built by
`Http_Connector('thingsboard.cloud', '80', 'test_c2t3')` in test.py. -/
def httpSample : Http_Connector :=
  { debug := false, data := .dict .nil, host := .str "thingsboard.cloud",
    port := .str "80", access_token := .str "test_c2t3" }

/-- A concrete `Mqtt_Connector` state, as built by
`Mqtt_Connector('thingsboard.cloud', 1883, 'test_c2t3')` in test.py. -/
def mqttSample : Mqtt_Connector :=
  { debug := false, data := .dict .nil, gateway_data := .dict .nil,
    host := .str "thingsboard.cloud", port := .int 1883,
    username := .str "test_c2t3" }

/-- The state `mqttSample` with two buffered readings, for concrete removal tests. -/
def mqttSample2 : Mqtt_Connector :=
  { mqttSample with
    data := .dict (.cons (.str "a") (.int 1)
      (.cons (.str "b") (.int 2) .nil)) }

theorem isScalar_false_iff (v : PyValue) :
    isScalar v = false ↔
      (v.typeOf ≠ PyType.int ∧ v.typeOf ≠ PyType.float ∧
       v.typeOf ≠ PyType.str ∧ v.typeOf ≠ PyType.bool) := by
  cases v <;> simp [isScalar, PyValue.typeOf]

theorem not_scalarGuard_of_isScalar (v : PyValue) (h : isScalar v = true) :
    ¬(v.typeOf ≠ PyType.int ∧ v.typeOf ≠ PyType.float ∧
      v.typeOf ≠ PyType.str ∧ v.typeOf ≠ PyType.bool) := by
  cases v <;> simp_all [isScalar, PyValue.typeOf]

namespace PyEntries

/-- Structural induction for entry lists: the mutual recursor specialised to
a single motive on `PyEntries`. -/
@[induction_eliminator]
theorem inductionOn {motive : PyEntries → Prop}
    (nil : motive .nil)
    (cons : ∀ (key val : PyValue) (rest : PyEntries),
      motive rest → motive (.cons key val rest)) :
    ∀ l, motive l
  | .nil => nil
  | .cons k v r => cons k v r (inductionOn nil cons r)

theorem lookup_set_self (l : PyEntries) (key val : PyValue) :
    (l.set key val).lookup key = some val := by
  induction l with
  | nil => simp [set, lookup]
  | cons k v r ih =>
    by_cases h : k = key
    · simp [set, h, lookup]
    · simp [set, h, lookup, ih]

theorem wf_set (l : PyEntries) (key val : PyValue)
    (hl : l.wf = true) (hk : key.typeOf = PyType.str)
    (hv : isScalar val = true) :
    (l.set key val).wf = true := by
  induction l with
  | nil => simp [set, wf, hk, hv]
  | cons k v r ih =>
    simp only [wf, Bool.and_eq_true, decide_eq_true_eq] at hl
    obtain ⟨⟨hk2, hv2⟩, hr⟩ := hl
    by_cases h : k = key
    · simp [set, h, wf, hk, hv, hr]
    · simp [set, h, wf, hk2, hv2, ih hr]

theorem del_eq_none_iff (l : PyEntries) (key : PyValue) :
    l.del key = none ↔ l.hasKey key = false := by
  induction l with
  | nil => simp [del, hasKey]
  | cons k v r ih =>
    by_cases h : k = key
    · simp [del, hasKey, h]
    · simp [del, hasKey, h, ih]

theorem del_decomp (l : PyEntries) (key : PyValue)
    (h : l.hasKey key = true) :
    ∃ (pre : PyEntries) (v : PyValue) (post : PyEntries),
      l = pre.app (.cons key v post) ∧
      pre.hasKey key = false ∧ l.del key = some (pre.app post) := by
  induction l with
  | nil => simp [hasKey] at h
  | cons k v r ih =>
    by_cases hk : k = key
    · subst hk
      exact ⟨.nil, v, r, by simp [app], by simp [hasKey], by simp [del, app]⟩
    · have h2 : r.hasKey key = true := by
        simpa [hasKey, hk] using h
      obtain ⟨pre, w, post, he, hpre, hdel⟩ := ih h2
      refine ⟨.cons k v pre, w, post, ?_, ?_, ?_⟩
      · simp [app, he]
      · simp [hasKey, hk, hpre]
      · simp [del, hk, hdel, app]

theorem wf_false_iff (l : PyEntries) :
    l.wf = false ↔ ∃ (k v : PyValue), Mem k v l ∧
      (k.typeOf ≠ PyType.str ∨ isScalar v = false) := by
  induction l with
  | nil =>
    constructor
    · intro h; simp [wf] at h
    · rintro ⟨k, v, hm, -⟩; cases hm
  | cons k v r ih =>
    by_cases hk : k.typeOf = PyType.str
    · by_cases hv : isScalar v = true
      · have hw : wf (.cons k v r) = r.wf := by simp [wf, hk, hv]
        rw [hw, ih]
        constructor
        · rintro ⟨k2, v2, hm, hb⟩
          exact ⟨k2, v2, Mem.tail _ _ _ _ _ hm, hb⟩
        · rintro ⟨k2, v2, hm, hb⟩
          cases hm with
          | head =>
            rcases hb with h2 | h2
            · exact absurd hk h2
            · rw [hv] at h2; cases h2
          | tail a b c hm2 => exact ⟨k2, v2, hm2, hb⟩
      · have hv2 : isScalar v = false := by
          cases h2 : isScalar v
          · rfl
          · exact absurd h2 hv
        constructor
        · intro _
          exact ⟨k, v, Mem.head k v r, Or.inr hv2⟩
        · intro _
          simp [wf, hv2]
    · constructor
      · intro _
        exact ⟨k, v, Mem.head k v r, Or.inl hk⟩
      · intro _
        simp [wf, hk]

end PyEntries

theorem validateEntries_ok_iff (l : PyEntries) :
    validateEntries l = .ok () ↔ l.wf = true := by
  induction l with
  | nil => simp [validateEntries, PyEntries.wf]
  | cons k v r ih =>
    unfold validateEntries
    by_cases hk : k.typeOf = PyType.str
    · by_cases hv : isScalar v = true
      · have hg := not_scalarGuard_of_isScalar v hv
        simp [hk, hg, PyEntries.wf, hv, ih]
      · have hfv : isScalar v = false := by
          cases h2 : isScalar v
          · rfl
          · exact absurd h2 hv
        have hg := (isScalar_false_iff v).mp hfv
        simp [hk, hg, PyEntries.wf, hfv]
    · simp [hk, PyEntries.wf]

theorem validateEntries_error_of_wf_false (l : PyEntries)
    (h : l.wf = false) :
    ∃ msg, validateEntries l = .error (.ValueError msg) := by
  induction l with
  | nil => simp [PyEntries.wf] at h
  | cons k v r ih =>
    unfold validateEntries
    by_cases hk : k.typeOf = PyType.str
    · by_cases hv : isScalar v = true
      · have hg := not_scalarGuard_of_isScalar v hv
        have hr : r.wf = false := by
          simpa [PyEntries.wf, hk, hv] using h
        simpa [hk, hg] using ih hr
      · have hfv : isScalar v = false := by
          cases h2 : isScalar v
          · rfl
          · exact absurd h2 hv
        have hg := (isScalar_false_iff v).mp hfv
        exact ⟨"value must be an int, float, string or boolean", by simp [hk, hg]⟩
    · exact ⟨"key must be a string", by simp [hk]⟩

theorem validateEntries_error_shape (l : PyEntries) (e : PyError)
    (h : validateEntries l = .error e) : ∃ msg, e = .ValueError msg := by
  induction l with
  | nil => simp [validateEntries] at h
  | cons k v r ih =>
    unfold validateEntries at h
    by_cases hk : k.typeOf = PyType.str
    · by_cases hg : (v.typeOf ≠ PyType.int ∧ v.typeOf ≠ PyType.float ∧
          v.typeOf ≠ PyType.str ∧ v.typeOf ≠ PyType.bool)
      · simp [hk, hg] at h
        exact ⟨"value must be an int, float, string or boolean", h.symm⟩
      · simp [hk, hg] at h
        exact ih h
    · simp [hk] at h
      exact ⟨"key must be a string", h.symm⟩

theorem pyHashable_of_str (k : PyValue) (h : k.typeOf = PyType.str) :
    pyHashable k = true := by
  cases k <;> first | rfl | simp [PyValue.typeOf] at h

theorem set_multiple_nondict (c : Mqtt_Connector) (w : PyValue)
    (h : w.typeOf ≠ PyType.dict) :
    c.set_multiple_data w =
      .error (.ValueError "data must be a dictionary") := by
  cases w
  case dict l => exact absurd rfl h
  all_goals rfl

/-- C6: clearing the MQTT connector leaves `data` equal to the empty
mapping, for every prior buffer state (and whatever single argument the
source's signature demands). -/
theorem C6_remove_all_clears (c : Mqtt_Connector) (x : PyValue) :
    (c.remove_all_data x).data = PyValue.dict .nil := rfl

/-- C6 witnessed on a loaded two-entry buffer. -/
theorem C6_remove_all_clears_witness :
    (mqttSample2.remove_all_data .pynone).data = PyValue.dict .nil :=
  C6_remove_all_clears mqttSample2 .pynone

/-- C10: `remove_all_data` takes one positional argument (mirrored by the
extra `PyValue` parameter of the embedded operation), never validates it
and ignores it entirely: for every argument and every prior state the
result is the same connector with an empty `data` buffer and no other field
changed, and any two argument values give the identical result. -/
theorem C10_remove_all_arg_ignored (c : Mqtt_Connector) (x y : PyValue) :
    c.remove_all_data x = { c with data := .dict .nil } ∧
    c.remove_all_data x = c.remove_all_data y :=
  ⟨rfl, rfl⟩

/-- C10 witnessed with two arguments of different, never-checked types. -/
theorem C10_remove_all_arg_ignored_witness :
    mqttSample2.remove_all_data (.dict .nil) =
      { mqttSample2 with data := .dict .nil } ∧
    mqttSample2.remove_all_data (.dict .nil) =
      mqttSample2.remove_all_data (.int 7) :=
  C10_remove_all_arg_ignored mqttSample2 (.dict .nil) (.int 7)

/-- C9: every run of the MQTT send unit of work hands `client.publish`
exactly the topic `v1/devices/me/telemetry` together with a payload
dictionary whose `ts` field is the integer seconds-since-epoch value and
whose `values` field is the data buffer given to the unit of work, whatever
the debug flag and however the publish call turns out. -/
theorem C9_publish_topic_payload (snapshot : PyValue) (debug : Bool)
    (now : Int) (publishResult : Except PyError Int) :
    ∃ entries : PyEntries,
      (Mqtt_Connector.send_telemetry_thread snapshot debug now
          publishResult).publishCall =
        some ("v1/devices/me/telemetry", .dict entries) ∧
      entries.lookup (.str "ts") = some (.int now) ∧
      entries.lookup (.str "values") = some snapshot := by
  refine ⟨.cons (.str "ts") (.int now)
    (.cons (.str "values") snapshot .nil), ?_, ?_, ?_⟩
  · rcases hp : mqttSendTry snapshot debug publishResult with ⟨lines, exc⟩
    cases exc <;>
      simp [Mqtt_Connector.send_telemetry_thread, hp, mqttTelemetryPayload]
  · simp [PyEntries.lookup]
  · simp [PyEntries.lookup]

/-- C9 witnessed at the test buffer, debug on, a successful local queuing
result, and one concrete clock reading. -/
theorem C9_publish_topic_payload_witness :
    ∃ entries : PyEntries,
      (Mqtt_Connector.send_telemetry_thread
          (.dict (.cons (.str "powerFactor") (.float (3/4)) .nil))
          true 1700000000 (.ok 0)).publishCall =
        some ("v1/devices/me/telemetry", .dict entries) ∧
      entries.lookup (.str "ts") = some (.int 1700000000) ∧
      entries.lookup (.str "values") =
        some (.dict (.cons (.str "powerFactor") (.float (3/4)) .nil)) :=
  C9_publish_topic_payload
    (.dict (.cons (.str "powerFactor") (.float (3/4)) .nil))
    true 1700000000 (.ok 0)

/-- C2 as stated is refuted by the code: with debug enabled and the publish
call returning the queue-size-exceeded local queuing result
(paho's MQTT_ERR_QUEUE_SIZE = 15), the thread body never prints that
classification. The comparison chain reads the misspelt attribute
`mqtt.MQTT__ERR_QUEUE_SIZE` (line 307), raising `AttributeError`, which the
except clause prints as a generic send failure; the claim's no-propagation
part does hold (`raised = none`). -/
theorem C2_queue_size_never_classified :
    (Mqtt_Connector.send_telemetry_thread (.dict .nil) true 1700000000
        (.ok 15)).printed =
      [.sendingHeader, .sendingData (.dict .nil),
       .sendFailed (.AttributeError "MQTT__ERR_QUEUE_SIZE")] ∧
    (Mqtt_Connector.send_telemetry_thread (.dict .nil) true 1700000000
        (.ok 15)).raised = none ∧
    mqttModuleAttr "MQTT_ERR_QUEUE_SIZE" = some 15 :=
  ⟨rfl, rfl, rfl⟩

/-- C4: constructing Http_Connector with a non-string host, port or
credential fails with InvalidArgument (ValueError), and constructing
Mqtt_Connector with a non-string host, a non-integer port or a non-string
credential fails likewise; in particular a port of the wrong kind for the
transport (non-string for HTTP, non-integer for MQTT) is rejected. -/
theorem C4_init_validation (host port tok : PyValue) (debug : Bool) :
    ((host.typeOf ≠ PyType.str ∨ port.typeOf ≠ PyType.str ∨
        tok.typeOf ≠ PyType.str) →
      ∃ msg, Http_Connector.init host port tok debug =
        .error (.ValueError msg)) ∧
    ((host.typeOf ≠ PyType.str ∨ port.typeOf ≠ PyType.int ∨
        tok.typeOf ≠ PyType.str) →
      ∃ msg, Mqtt_Connector.init host port tok debug =
        .error (.ValueError msg)) := by
  constructor
  · intro h
    unfold Http_Connector.init
    rcases h with h | h | h
    · exact ⟨"Host must be a string.", by simp [h]⟩
    · by_cases h1 : host.typeOf = PyType.str
      · exact ⟨"Port must be a string.", by simp [h1, h]⟩
      · exact ⟨"Host must be a string.", by simp [h1]⟩
    · by_cases h1 : host.typeOf = PyType.str
      · by_cases h2 : port.typeOf = PyType.str
        · exact ⟨"Access token must be a string.", by simp [h1, h2, h]⟩
        · exact ⟨"Port must be a string.", by simp [h1, h2]⟩
      · exact ⟨"Host must be a string.", by simp [h1]⟩
  · intro h
    unfold Mqtt_Connector.init
    rcases h with h | h | h
    · exact ⟨"host must be a string", by simp [h]⟩
    · by_cases h1 : host.typeOf = PyType.str
      · exact ⟨"port must be an integer", by simp [h1, h]⟩
      · exact ⟨"host must be a string", by simp [h1]⟩
    · by_cases h1 : host.typeOf = PyType.str
      · by_cases h2 : port.typeOf = PyType.int
        · exact ⟨"access_token must be a string", by simp [h1, h2, h]⟩
        · exact ⟨"port must be an integer", by simp [h1, h2]⟩
      · exact ⟨"host must be a string", by simp [h1]⟩

/-- C4 witnessed: an integer host is rejected by the HTTP constructor, and
a string port, the wrong kind for the MQTT transport, is rejected by the
MQTT constructor. -/
theorem C4_init_validation_witness :
    (∃ msg, Http_Connector.init (.int 1) (.str "80") (.str "t") false =
      .error (.ValueError msg)) ∧
    (∃ msg, Mqtt_Connector.init (.str "h") (.str "1883") (.str "t") false =
      .error (.ValueError msg)) :=
  ⟨(C4_init_validation (.int 1) (.str "80") (.str "t") false).1
      (Or.inl (by decide)),
   (C4_init_validation (.str "h") (.str "1883") (.str "t") false).2
      (Or.inr (Or.inl (by decide)))⟩

/-- C5: removing with a non-string key fails with InvalidArgument
(ValueError); removing an absent string key fails with KeyNotFound
(KeyError); removing a present string key succeeds and deletes exactly the
first entry carrying that key, leaving every other entry in place. Each
failure returns before any mutation, so `data` is unchanged. -/
theorem C5_remove_data (c : Mqtt_Connector) (key : PyValue)
    (l : PyEntries) (hd : c.data = .dict l) :
    (key.typeOf ≠ PyType.str →
      c.remove_data key = .error (.ValueError "key must be a string")) ∧
    (key.typeOf = PyType.str → l.hasKey key = false →
      c.remove_data key = .error (.KeyError key)) ∧
    (key.typeOf = PyType.str → l.hasKey key = true →
      ∃ (pre : PyEntries) (v : PyValue) (post : PyEntries),
        l = pre.app (.cons key v post) ∧ pre.hasKey key = false ∧
        c.remove_data key = .ok { c with data := .dict (pre.app post) }) := by
  refine ⟨?_, ?_, ?_⟩
  · intro h
    simp [Mqtt_Connector.remove_data, h]
  · intro hk habs
    have hdel : l.del key = none := (PyEntries.del_eq_none_iff l key).mpr habs
    have hh : pyHashable key = true := pyHashable_of_str key hk
    simp [Mqtt_Connector.remove_data, hk, hd, pyDelItem, hh, hdel]
  · intro hk hpres
    have hh : pyHashable key = true := pyHashable_of_str key hk
    obtain ⟨pre, v, post, he, hpre, hdel⟩ := PyEntries.del_decomp l key hpres
    refine ⟨pre, v, post, he, hpre, ?_⟩
    simp [Mqtt_Connector.remove_data, hk, hd, pyDelItem, hh, hdel]

/-- C5 witnessed on a two-entry buffer: an integer key, an absent string
key, and the present key "a". -/
theorem C5_remove_data_witness :
    (mqttSample2.remove_data (.int 5) =
      .error (.ValueError "key must be a string")) ∧
    (mqttSample2.remove_data (.str "z") = .error (.KeyError (.str "z"))) ∧
    (∃ (pre : PyEntries) (v : PyValue) (post : PyEntries),
      PyEntries.cons (.str "a") (.int 1)
          (.cons (.str "b") (.int 2) .nil) =
        pre.app (.cons (.str "a") v post) ∧
      pre.hasKey (.str "a") = false ∧
      mqttSample2.remove_data (.str "a") =
        .ok { mqttSample2 with data := .dict (pre.app post) }) :=
  ⟨(C5_remove_data mqttSample2 (.int 5)
      (.cons (.str "a") (.int 1) (.cons (.str "b") (.int 2) .nil)) rfl).1
      (by decide),
   (C5_remove_data mqttSample2 (.str "z")
      (.cons (.str "a") (.int 1) (.cons (.str "b") (.int 2) .nil)) rfl).2.1
      rfl (by decide),
   (C5_remove_data mqttSample2 (.str "a")
      (.cons (.str "a") (.int 1) (.cons (.str "b") (.int 2) .nil)) rfl).2.2
      rfl (by decide)⟩

/-- C7: storing any value of one of the four scalar kinds under any string
key succeeds on both connectors without error, and reading that key in the
resulting buffer returns exactly the stored value, whatever was there
before. -/
theorem C7_set_single_stores (hc : Http_Connector) (mc : Mqtt_Connector)
    (s : String) (v : PyValue) (hl ml : PyEntries)
    (hhd : hc.data = .dict hl) (hmd : mc.data = .dict ml)
    (hv : isScalar v = true) :
    (∃ hc2, hc.set_single_data (.str s) v = .ok hc2 ∧
      ∃ l2 : PyEntries, hc2.data = .dict l2 ∧
        l2.lookup (.str s) = some v) ∧
    (∃ mc2, mc.set_single_data (.str s) v = .ok mc2 ∧
      ∃ l2 : PyEntries, mc2.data = .dict l2 ∧
        l2.lookup (.str s) = some v) := by
  constructor
  · refine ⟨{ hc with data := .dict (hl.set (.str s) v) }, ?_,
      hl.set (.str s) v, rfl, PyEntries.lookup_set_self hl (.str s) v⟩
    simp [Http_Connector.set_single_data, hhd, pySetItem, pyHashable]
  · have hg := not_scalarGuard_of_isScalar v hv
    have h1 : (PyValue.str s).typeOf = PyType.str := rfl
    refine ⟨{ mc with data := .dict (ml.set (.str s) v) }, ?_,
      ml.set (.str s) v, rfl, PyEntries.lookup_set_self ml (.str s) v⟩
    simp [Mqtt_Connector.set_single_data, h1, hg, hmd,
      pySetItem, pyHashable]

/-- C7 witnessed with the test reading powerFactor = 0.75 on freshly
constructed connectors. -/
theorem C7_set_single_stores_witness :
    (∃ hc2, httpSample.set_single_data (.str "powerFactor") (.float (3/4)) =
        .ok hc2 ∧
      ∃ l2 : PyEntries, hc2.data = .dict l2 ∧
        l2.lookup (.str "powerFactor") = some (.float (3/4))) ∧
    (∃ mc2, mqttSample.set_single_data (.str "powerFactor") (.float (3/4)) =
        .ok mc2 ∧
      ∃ l2 : PyEntries, mc2.data = .dict l2 ∧
        l2.lookup (.str "powerFactor") = some (.float (3/4))) :=
  C7_set_single_stores httpSample mqttSample "powerFactor" (.float (3/4))
    .nil .nil rfl rfl rfl

/-- C8: replacing the buffer with a mapping of string keys and scalar
values succeeds on both connectors, and afterwards `data` equals that
mapping exactly, independent of the buffer's prior contents. -/
theorem C8_set_multiple_replaces (hc : Http_Connector) (mc : Mqtt_Connector)
    (l : PyEntries) (h : l.wf = true) :
    hc.set_multiple_data (.dict l) = .ok { hc with data := .dict l } ∧
    mc.set_multiple_data (.dict l) = .ok { mc with data := .dict l } := by
  constructor
  · rfl
  · have hok : validateEntries l = .ok () := (validateEntries_ok_iff l).mpr h
    simp [Mqtt_Connector.set_multiple_data, hok]

/-- The mapping sent in test.py: powerFactor 0.75, voltage 220. -/
def testMapping : PyEntries :=
  .cons (.str "powerFactor") (.float (3/4))
    (.cons (.str "voltage") (.int 220) .nil)

/-- C8 witnessed with the test mapping, on connectors whose buffers are
non-empty, showing the prior contents do not matter. -/
theorem C8_set_multiple_replaces_witness :
    ({ httpSample with data := .dict testMapping }).set_multiple_data
        (.dict testMapping) =
      .ok { httpSample with data := .dict testMapping } ∧
    mqttSample2.set_multiple_data (.dict testMapping) =
      .ok { mqttSample2 with data := .dict testMapping } :=
  C8_set_multiple_replaces { httpSample with data := .dict testMapping }
    mqttSample2 testMapping rfl

/-- C3: `set_multiple_data` on the MQTT connector fails with
InvalidArgument (ValueError) exactly when the argument is not a mapping, or
some key of it is not a string, or some value of it is not one of the four
scalar kinds; when none of that holds it succeeds and replaces `data`
wholesale with the argument. A failure returns before the assignment, so
`data` is unchanged. -/
theorem C3_set_multiple_iff (c : Mqtt_Connector) (values : PyValue) :
    ((∃ msg, c.set_multiple_data values = .error (.ValueError msg)) ↔
      (values.typeOf ≠ PyType.dict ∨
        ∃ (l : PyEntries) (k v : PyValue), values = .dict l ∧
          PyEntries.Mem k v l ∧
          (k.typeOf ≠ PyType.str ∨ isScalar v = false))) ∧
    (¬(values.typeOf ≠ PyType.dict ∨
        ∃ (l : PyEntries) (k v : PyValue), values = .dict l ∧
          PyEntries.Mem k v l ∧
          (k.typeOf ≠ PyType.str ∨ isScalar v = false)) →
      c.set_multiple_data values = .ok { c with data := values }) := by
  by_cases hd : values.typeOf = PyType.dict
  · obtain ⟨l, rfl⟩ : ∃ l, values = .dict l := by
      cases values
      case dict l => exact ⟨l, rfl⟩
      all_goals simp [PyValue.typeOf] at hd
    constructor
    · constructor
      · rintro ⟨msg, hmsg⟩
        right
        rcases hve : validateEntries l with e | u
        · have hwf : l.wf = false := by
            cases hq : l.wf
            · rfl
            · rw [← validateEntries_ok_iff] at hq
              rw [hq] at hve
              cases hve
          obtain ⟨k, v, hm, hb⟩ := (PyEntries.wf_false_iff l).mp hwf
          exact ⟨l, k, v, rfl, hm, hb⟩
        · exfalso
          cases u
          simp [Mqtt_Connector.set_multiple_data, hve] at hmsg
      · rintro (h | ⟨l2, k, v, heq, hm, hb⟩)
        · exact absurd rfl h
        · injection heq with h2
          subst h2
          have hwf : l.wf = false :=
            (PyEntries.wf_false_iff l).mpr ⟨k, v, hm, hb⟩
          obtain ⟨msg, hmsg⟩ := validateEntries_error_of_wf_false l hwf
          exact ⟨msg, by simp [Mqtt_Connector.set_multiple_data, hmsg]⟩
    · intro h
      have hnb : ¬∃ (l2 : PyEntries) (k v : PyValue),
          (PyValue.dict l : PyValue) = .dict l2 ∧ PyEntries.Mem k v l2 ∧
          (k.typeOf ≠ PyType.str ∨ isScalar v = false) :=
        fun hb => h (Or.inr hb)
      have hwf : l.wf = true := by
        cases hq : l.wf
        · obtain ⟨k, v, hm, hb⟩ := (PyEntries.wf_false_iff l).mp hq
          exact absurd ⟨l, k, v, rfl, hm, hb⟩ hnb
        · rfl
      have hok : validateEntries l = .ok () :=
        (validateEntries_ok_iff l).mpr hwf
      simp [Mqtt_Connector.set_multiple_data, hok]
  · have he := set_multiple_nondict c values hd
    constructor
    · constructor
      · intro _
        exact Or.inl hd
      · intro _
        exact ⟨"data must be a dictionary", he⟩
    · intro h
      exact absurd (Or.inl hd) h

/-- C3 witnessed in both directions: a mapping carrying a None value is
rejected, and test.py's valid mapping replaces a non-empty buffer
wholesale. -/
theorem C3_set_multiple_iff_witness :
    (∃ msg, mqttSample.set_multiple_data
        (.dict (.cons (.str "k") .pynone .nil)) =
      .error (.ValueError msg)) ∧
    mqttSample2.set_multiple_data (.dict testMapping) =
      .ok { mqttSample2 with data := .dict testMapping } :=
  ⟨(C3_set_multiple_iff mqttSample
      (.dict (.cons (.str "k") .pynone .nil))).1.mpr
      (Or.inr ⟨.cons (.str "k") .pynone .nil, .str "k", .pynone, rfl,
        PyEntries.Mem.head _ _ _, Or.inr rfl⟩),
   (C3_set_multiple_iff mqttSample2 (.dict testMapping)).2 (by
      rintro (h | ⟨l2, k, v, heq, hm, hb⟩)
      · exact absurd rfl h
      · injection heq with h2
        subst h2
        revert hb
        cases hm with
        | head => decide
        | tail a b c hm2 =>
          cases hm2 with
          | head => decide
          | tail a2 b2 c2 hm3 => cases hm3)⟩

/-- C1 as stated is refuted by the code: the HTTP connector's mutation
operations validate nothing. Storing the non-scalar value `None` under a
string key through `Http_Connector.set_single_data` completes without
error and stores it, instead of failing with InvalidArgument. -/
theorem C1_http_stores_nonscalar :
    Http_Connector.set_single_data httpSample (.str "k") .pynone =
      .ok { httpSample with
            data := .dict (.cons (.str "k") .pynone .nil) } ∧
    isScalar .pynone = false :=
  ⟨rfl, rfl⟩

/-- C1 amended: the stored-buffer invariant holds and is enforced on the
MQTT connector only. From a well-formed buffer, any `set_single_data` or
`set_multiple_data` call that completes without error leaves every stored
key a string and every stored value one of the four scalar kinds, and an
attempt to store a non-string key or a non-scalar value fails with
InvalidArgument (ValueError) before storing; the HTTP connector's two
operations perform no such validation. -/
theorem C1_mqtt_validates (c : Mqtt_Connector) (k v m : PyValue)
    (h : wfData c.data = true) :
    (∀ c2, c.set_single_data k v = .ok c2 → wfData c2.data = true) ∧
    (∀ c2, c.set_multiple_data m = .ok c2 → wfData c2.data = true) ∧
    ((k.typeOf ≠ PyType.str ∨ isScalar v = false) →
      ∃ msg, c.set_single_data k v = .error (.ValueError msg)) ∧
    (wfData m = false →
      ∃ msg, c.set_multiple_data m = .error (.ValueError msg)) := by
  obtain ⟨l, hcl, hlw⟩ : ∃ l : PyEntries, c.data = .dict l ∧ l.wf = true := by
    rcases hc : c.data with n | q | s | b | _ | l
    all_goals rw [hc] at h
    all_goals simp [wfData] at h
    exact ⟨l, rfl, h⟩
  refine ⟨?_, ?_, ?_, ?_⟩
  · intro c2 hc2
    unfold Mqtt_Connector.set_single_data at hc2
    by_cases h1 : k.typeOf = PyType.str
    · by_cases h2 : (k.typeOf ≠ PyType.str)
      · exact absurd h1 h2
      · by_cases h3 : (v.typeOf ≠ PyType.int ∧ v.typeOf ≠ PyType.float ∧
            v.typeOf ≠ PyType.str ∧ v.typeOf ≠ PyType.bool)
        · simp [h2, h3] at hc2
        · have hv : isScalar v = true := by
            cases hvv : isScalar v
            · exact absurd ((isScalar_false_iff v).mp hvv) h3
            · rfl
          have hh : pyHashable k = true := pyHashable_of_str k h1
          rw [hcl] at hc2
          simp [h2, h3, pySetItem, hh] at hc2
          rw [← hc2]
          simpa [wfData] using PyEntries.wf_set l k v hlw h1 hv
    · have h2 : k.typeOf ≠ PyType.str := h1
      simp [h2] at hc2
  · intro c2 hc2
    cases m with
    | dict l2 =>
      rcases hve : validateEntries l2 with e | u
      · simp [Mqtt_Connector.set_multiple_data, hve] at hc2
      · cases u
        simp [Mqtt_Connector.set_multiple_data, hve] at hc2
        subst hc2
        have hw : l2.wf = true := (validateEntries_ok_iff l2).mp hve
        simpa [wfData] using hw
    | int n => cases hc2
    | float q => cases hc2
    | str s => cases hc2
    | bool b => cases hc2
    | pynone => cases hc2
  · intro hbad
    unfold Mqtt_Connector.set_single_data
    rcases hbad with hb | hb
    · exact ⟨"key must be a string", by simp [hb]⟩
    · by_cases h1 : k.typeOf = PyType.str
      · have hg := (isScalar_false_iff v).mp hb
        exact ⟨"value must be an int, float, string or boolean",
          by simp [h1, hg]⟩
      · exact ⟨"key must be a string", by simp [h1]⟩
  · intro hbad
    cases m with
    | dict l2 =>
      have hw : l2.wf = false := by simpa [wfData] using hbad
      obtain ⟨msg, hmsg⟩ := validateEntries_error_of_wf_false l2 hw
      exact ⟨msg, by simp [Mqtt_Connector.set_multiple_data, hmsg]⟩
    | int n => exact ⟨"data must be a dictionary", rfl⟩
    | float q => exact ⟨"data must be a dictionary", rfl⟩
    | str s => exact ⟨"data must be a dictionary", rfl⟩
    | bool b => exact ⟨"data must be a dictionary", rfl⟩
    | pynone => exact ⟨"data must be a dictionary", rfl⟩

/-- C1 amended, witnessed on the fresh MQTT connector: storing `None` under
a string key is rejected, and replacing the buffer with a non-mapping is
rejected, both with InvalidArgument. -/
theorem C1_mqtt_validates_witness :
    (∃ msg, mqttSample.set_single_data (.str "k") .pynone =
      .error (.ValueError msg)) ∧
    (∃ msg, mqttSample.set_multiple_data (.int 5) =
      .error (.ValueError msg)) :=
  ⟨(C1_mqtt_validates mqttSample (.str "k") .pynone (.int 5) rfl).2.2.1
      (Or.inr rfl),
   (C1_mqtt_validates mqttSample (.str "k") .pynone (.int 5) rfl).2.2.2
      rfl⟩
